import Mathlib

/-!
# Verification of the comic-bubble translation pipeline

Shallow embedding of the bubble-translation pipeline of this repository
(`translate_and_fill_bubbles_multilang.py`, `translation_context.py`,
`translate_and_fill_bubbles.py`) together with proofs about the claims of the
specification.

Modelling conventions:
* Python integers are `Int`; the source's float constants (`0.98`, `1.2`, `0.8`,
  `0.6`) are idealized as exact rationals (`ℚ`); detection confidences are kept
  as an opaque rational field (they are never used by the pipeline logic).
* Calls to external capabilities (the vision/translation chat completions) are
  abstracted as oracles of type `Except String String`: `.ok content` models a
  response whose message content is `content`, `.error e` models a raised
  exception (service error / timeout).
* Code that can raise an exception that escapes a function is modelled in the
  `Except String` monad; Python `None` returns are modelled with `Option`.
* Images are functions from integer pixel coordinates to colors; PIL's ellipse
  fill is idealized as painting exactly the pixels inside the closed ellipse,
  and glyph rasterization of `ImageDraw.text` is kept abstract in a
  `TextMeasure` parameter.
-/

/-! ## Detection (`detect_speech_bubbles`, lines 39–65)

The detector model (`YOLO`) is external; its raw output is a list of boxes
`(x1, y1, x2, y2)` with a confidence.  `detect_speech_bubbles` turns box `i`
(0-based position in detection order) into a bubble dict with
`bubble_id = i + 1` and integer geometry. -/

structure RawBox where
  x1 : Int
  y1 : Int
  x2 : Int
  y2 : Int
  conf : ℚ
deriving DecidableEq, Repr

structure Bubble where
  bubble_id : Int
  x : Int
  y : Int
  width : Int
  height : Int
  confidence : ℚ
  center_x : Int
  center_y : Int
deriving DecidableEq, Repr

/-- The bubble dict built at lines 52–61 for the detection at 0-based index `i`. -/
def mkBubble (i : Nat) (r : RawBox) : Bubble where
  bubble_id := (i : Int) + 1
  x := r.x1
  y := r.y1
  width := r.x2 - r.x1
  height := r.y2 - r.y1
  confidence := r.conf
  center_x := (r.x1 + r.x2) / 2
  center_y := (r.y1 + r.y2) / 2

/-- `detect_speech_bubbles`, starting from 0-based index `i`. -/
def detectFrom (i : Nat) : List RawBox → List Bubble
  | [] => []
  | r :: rs => mkBubble i r :: detectFrom (i + 1) rs

/-- `detect_speech_bubbles` (lines 39–65): ids are assigned 1-based in detection
order. -/
def detect_speech_bubbles (boxes : List RawBox) : List Bubble :=
  detectFrom 0 boxes

lemma detectFrom_length (i : Nat) (boxes : List RawBox) :
    (detectFrom i boxes).length = boxes.length := by
  induction boxes generalizing i with
  | nil => rfl
  | cons r rs ih => simp [detectFrom, ih]

lemma detectFrom_id_lower (i : Nat) (boxes : List RawBox) :
    ∀ b ∈ detectFrom i boxes, (i : Int) + 1 ≤ b.bubble_id := by
  induction boxes generalizing i with
  | nil => intro b hb; simp [detectFrom] at hb
  | cons r rs ih =>
      intro b hb
      simp only [detectFrom, List.mem_cons] at hb
      rcases hb with hb | hb
      · subst hb; simp [mkBubble]
      · have := ih (i + 1) b hb
        push_cast at this ⊢
        omega

/-- Detector-assigned ids are strictly increasing along the detection list. -/
lemma detect_ids_sorted (boxes : List RawBox) :
    (detect_speech_bubbles boxes).Pairwise (fun a b => a.bubble_id < b.bubble_id) := by
  unfold detect_speech_bubbles
  generalize 0 = i
  induction boxes generalizing i with
  | nil => simp [detectFrom]
  | cons r rs ih =>
      simp only [detectFrom, List.pairwise_cons]
      refine ⟨?_, ih (i + 1)⟩
      intro b hb
      have := detectFrom_id_lower (i + 1) rs b hb
      simp only [mkBubble]
      push_cast at this ⊢
      omega

/-! ## Reading order (`bubble_data.sort(key=lambda b: (b['y'], b['x']))`, line 436)

Python's `list.sort` is a *stable* sort on the key `(y, x)` under lexicographic
tuple comparison.  We embed it as a stable insertion sort: an element is
inserted *before* the first already-placed element whose key is `≥` its own, so
elements that occur earlier in the input stay before later elements with an
equal key. -/

/-- Lexicographic `≤` on the Python sort key `(b['y'], b['x'])`. -/
def sortKeyLe (a b : Bubble) : Prop :=
  a.y < b.y ∨ (a.y = b.y ∧ a.x ≤ b.x)

instance (a b : Bubble) : Decidable (sortKeyLe a b) := by
  unfold sortKeyLe; exact inferInstance

/-- Equality of the Python sort keys `(b['y'], b['x'])`. -/
def sameKey (a b : Bubble) : Prop :=
  a.y = b.y ∧ a.x = b.x

instance (a b : Bubble) : Decidable (sameKey a b) := by
  unfold sameKey; exact inferInstance

/-- Stable insertion: `a` (earlier in the input) goes before the first element
with a key not smaller than `a`'s. -/
def orderedInsertStable (a : Bubble) : List Bubble → List Bubble
  | [] => [a]
  | b :: l => if sortKeyLe a b then a :: b :: l else b :: orderedInsertStable a l

/-- Embedding of `bubble_data.sort(key=lambda b: (b['y'], b['x']))` (line 436):
stable sort by `(y, x)`. -/
def pySortByYX (l : List Bubble) : List Bubble :=
  l.foldr orderedInsertStable []

lemma sortKeyLe_total {a b : Bubble} (h : ¬ sortKeyLe a b) : sortKeyLe b a := by
  unfold sortKeyLe at *; omega

lemma sortKeyLe_trans {a b c : Bubble} (hab : sortKeyLe a b) (hbc : sortKeyLe b c) :
    sortKeyLe a c := by
  unfold sortKeyLe at *; omega

lemma not_sameKey_of_not_le {a b : Bubble} (h : ¬ sortKeyLe a b) : ¬ sameKey b a := by
  unfold sortKeyLe at h; unfold sameKey; omega

lemma mem_orderedInsertStable {c a : Bubble} {l : List Bubble} :
    c ∈ orderedInsertStable a l ↔ c = a ∨ c ∈ l := by
  induction l with
  | nil => simp [orderedInsertStable]
  | cons b l ih =>
      by_cases h : sortKeyLe a b
      · simp only [orderedInsertStable, if_pos h, List.mem_cons]
        try tauto
      · simp only [orderedInsertStable, if_neg h, List.mem_cons, ih]
        try tauto

lemma length_orderedInsertStable (a : Bubble) (l : List Bubble) :
    (orderedInsertStable a l).length = l.length + 1 := by
  induction l with
  | nil => rfl
  | cons b l ih =>
      by_cases h : sortKeyLe a b <;> simp [orderedInsertStable, h, ih]

lemma mem_pySortByYX {c : Bubble} {l : List Bubble} : c ∈ pySortByYX l ↔ c ∈ l := by
  induction l with
  | nil => simp [pySortByYX]
  | cons a l ih =>
      show c ∈ orderedInsertStable a (pySortByYX l) ↔ _
      rw [mem_orderedInsertStable]
      simp [ih]

lemma length_pySortByYX (l : List Bubble) : (pySortByYX l).length = l.length := by
  induction l with
  | nil => rfl
  | cons a l ih =>
      show (orderedInsertStable a (pySortByYX l)).length = _
      rw [length_orderedInsertStable, ih]
      rfl

lemma pairwise_orderedInsertStable {a : Bubble} {l : List Bubble}
    (hs : l.Pairwise sortKeyLe) :
    (orderedInsertStable a l).Pairwise sortKeyLe := by
  induction l with
  | nil => simp [orderedInsertStable]
  | cons b l ih =>
      rw [List.pairwise_cons] at hs
      by_cases h : sortKeyLe a b
      · simp only [orderedInsertStable, if_pos h, List.pairwise_cons, List.mem_cons]
        refine ⟨?_, hs⟩
        intro c hc
        rcases hc with hc | hc
        · subst hc; exact h
        · exact sortKeyLe_trans h (hs.1 c hc)
      · simp only [orderedInsertStable, if_neg h, List.pairwise_cons]
        refine ⟨?_, ih hs.2⟩
        intro c hc
        rcases mem_orderedInsertStable.1 hc with hc | hc
        · subst hc; exact sortKeyLe_total h
        · exact hs.1 c hc

/-- The sorted list is `(y, x)`-lexicographically non-decreasing. -/
lemma pairwise_pySortByYX (l : List Bubble) : (pySortByYX l).Pairwise sortKeyLe := by
  induction l with
  | nil => simp [pySortByYX]
  | cons a l ih => exact pairwise_orderedInsertStable ih

lemma pairwise_idTie_insert {a : Bubble} {l : List Bubble}
    (hl : l.Pairwise (fun u v => sameKey u v → u.bubble_id < v.bubble_id))
    (ha : ∀ b ∈ l, a.bubble_id < b.bubble_id) :
    (orderedInsertStable a l).Pairwise
      (fun u v => sameKey u v → u.bubble_id < v.bubble_id) := by
  induction l with
  | nil => simp [orderedInsertStable]
  | cons b l ih =>
      rw [List.pairwise_cons] at hl
      by_cases h : sortKeyLe a b
      · simp only [orderedInsertStable, if_pos h, List.pairwise_cons, List.mem_cons]
        refine ⟨?_, hl⟩
        intro c hc _
        exact ha c (List.mem_cons.mpr hc)
      · simp only [orderedInsertStable, if_neg h, List.pairwise_cons]
        constructor
        · intro c hc
          rcases mem_orderedInsertStable.1 hc with hc | hc
          · subst hc
            intro hk
            exact absurd hk (not_sameKey_of_not_le h)
          · exact hl.1 c hc
        · exact ih hl.2 (fun c hc => ha c (by simp [hc]))

/-- Stability: if the input ids are strictly increasing, then in the sorted
output any two key-tied bubbles keep detector-id order. -/
lemma pairwise_idTie_pySort {l : List Bubble}
    (h : l.Pairwise (fun a b => a.bubble_id < b.bubble_id)) :
    (pySortByYX l).Pairwise (fun u v => sameKey u v → u.bubble_id < v.bubble_id) := by
  induction l with
  | nil => simp [pySortByYX]
  | cons a l ih =>
      rw [List.pairwise_cons] at h
      exact pairwise_idTie_insert (ih h.2)
        (fun b hb => h.1 b (mem_pySortByYX.1 hb))

/-! ## Cropping (`crop_bubble_region`, lines 72–88)

The crop rectangle is the padded bounding box clamped to the image (of width
`W` and height `H`); the crop is written to a uniquely named temp file.
`cv2.imwrite` raises (`!_img.empty()` assertion) when the cropped sub-image is
empty, i.e. when the clamped rectangle has no pixels; this exception is not
caught by any caller. -/

/-- The temp-file name `temp_bubble_{prefix}_{bubble_id}.png` (line 85). -/
def tempPath (pfx : String) (id : Int) : String :=
  "temp_bubble_" ++ pfx ++ "_" ++ toString id ++ ".png"

structure CropFile where
  x : Int
  y : Int
  x2 : Int
  y2 : Int
  path : String
deriving DecidableEq, Repr

/-- `crop_bubble_region` (lines 72–88) on an image of size `W × H`, with the
default `padding=10` used by the pipeline; `.error` models the uncaught
`cv2.error` raised by `cv2.imwrite` on an empty crop. -/
def crop_bubble_region (W H : Int) (pfx : String) (b : Bubble) : Except String CropFile :=
  let x := max 0 (b.x - 10)
  let y := max 0 (b.y - 10)
  let x2 := min W (b.x + b.width + 10)
  let y2 := min H (b.y + b.height + 10)
  if x < x2 ∧ y < y2 then
    .ok ⟨x, y, x2, y2, tempPath pfx b.bubble_id⟩
  else
    .error "cv2.error: !_img.empty() in function imwrite"

/-- The detector reports boxes inside the page image: `0 ≤ x1 ≤ x2 ≤ W` and
`0 ≤ y1 ≤ y2 ≤ H`, so the derived bubble satisfies the following. -/
def bubbleInBounds (W H : Int) (b : Bubble) : Prop :=
  0 ≤ b.x ∧ 0 ≤ b.y ∧ 0 ≤ b.width ∧ 0 ≤ b.height ∧
    b.x + b.width ≤ W ∧ b.y + b.height ≤ H

instance (W H : Int) (b : Bubble) : Decidable (bubbleInBounds W H b) := by
  unfold bubbleInBounds; exact inferInstance

/-- For an in-page bubble (even a zero-area one) the 10px padding makes the
clamped crop non-empty, so `crop_bubble_region` cannot raise. -/
lemma crop_bubble_region_ok {W H : Int} {b : Bubble} (hW : 1 ≤ W) (hH : 1 ≤ H)
    (hb : bubbleInBounds W H b) :
    crop_bubble_region W H pfx b =
      .ok ⟨max 0 (b.x - 10), max 0 (b.y - 10), min W (b.x + b.width + 10),
           min H (b.y + b.height + 10), tempPath pfx b.bubble_id⟩ := by
  unfold crop_bubble_region
  rw [if_pos]
  unfold bubbleInBounds at hb
  omega

/-! ## Extraction (`extract_text_from_bubble_async`, lines 133–176)

The function reads the temp file (`encode_image`, *outside* the `try`), awaits
the vision chat completion, strips the returned content, and deletes the temp
file; any exception from the completion call is caught, the temp file is
deleted if it still exists, and the sentinel `"ERROR"` is returned.

The file system is a finite set of paths; `os.remove` deletes a path,
`os.path.exists` tests membership.  The completion call is an oracle:
`.ok content` is a response with message content `content`, `.error` a raised
exception (API failure or timeout). -/

/-- Python's `str.strip()`: drop leading and trailing whitespace. -/
def pyStrip (s : String) : String :=
  String.mk (((s.toList.dropWhile Char.isWhitespace).reverse.dropWhile
    Char.isWhitespace).reverse)

def extract_text_from_bubble_async (fs : Finset String) (path : String)
    (oracle : Except String String) : Except String (Finset String × String) :=
  if path ∈ fs then
    match oracle with
    | .ok content => .ok (fs.erase path, pyStrip content)
    | .error _ => .ok (if path ∈ fs then fs.erase path else fs, "ERROR")
  else
    .error "FileNotFoundError"

/-- The value an extraction task resolves to (given that the temp file exists,
which the preceding `crop_bubble_region` guarantees): the stripped response
content on success, the sentinel `"ERROR"` on failure. -/
def extractResult (oracle : Except String String) : String :=
  match oracle with
  | .ok content => pyStrip content
  | .error _ => "ERROR"

lemma extract_text_value {fs : Finset String} {path : String}
    (h : path ∈ fs) (oracle : Except String String) :
    extract_text_from_bubble_async fs path oracle = .ok (fs.erase path, extractResult oracle) := by
  unfold extract_text_from_bubble_async extractResult
  cases oracle <;> simp [h]

/-! ## Sentinels and translation (`translate_text_async`, lines 224–266) -/

/-- `text in ["EMPTY", "ERROR"]`. -/
def isSentinel (s : String) : Bool :=
  s == "EMPTY" || s == "ERROR"

/-- `translate_text_async` (lines 224–266): sentinels are returned unchanged
without calling the capability; otherwise the stripped response content is
returned, and any exception from the call is caught and the original text
echoed back.  The context manager only contributes to the *prompt* of the
call, which the oracle abstracts, so it does not appear here. -/
def translate_text_async (oracle : Except String String) (text : String) : String :=
  if isSentinel text then text
  else
    match oracle with
    | .ok content => pyStrip content
    | .error _ => text

/-! ## The extraction fan-out of the page pipeline (lines 447–454)

The task-creation loop crops every sorted bubble eagerly (a raised `cv2.error`
escapes the page function) and creates one extraction task per bubble;
`asyncio.gather` then resolves all of them, each task catching its own
exceptions, and yields the results in task-creation order (= sorted bubble
order).  Crop temp files get per-call unique prefixes (`pfxs i` for the `i`-th
bubble). -/

def cropAll (W H : Int) (pfxs : Nat → String) : Nat → List Bubble → Except String (List CropFile)
  | _, [] => .ok []
  | i, b :: bs =>
    match crop_bubble_region W H (pfxs i) b with
    | .error e => .error e
    | .ok c =>
      match cropAll W H pfxs (i + 1) bs with
      | .error e => .error e
      | .ok cs => .ok (c :: cs)

/-- Lines 447–454: the extraction phase of the pipeline.  Fails (exception
escapes) iff some crop fails; otherwise every region resolves to its own
task's value. -/
def extractionPhase (W H : Int) (pfxs : Nat → String)
    (extractOracle : Nat → Except String String) (bubbles : List Bubble) :
    Except String (List String) :=
  match cropAll W H pfxs 0 bubbles with
  | .error e => .error e
  | .ok _ => .ok ((List.range bubbles.length).map fun i => extractResult (extractOracle i))

lemma cropAll_ok {W H : Int} {pfxs : Nat → String} (hW : 1 ≤ W) (hH : 1 ≤ H)
    (bs : List Bubble) (hbs : ∀ b ∈ bs, bubbleInBounds W H b) (i : Nat) :
    ∃ cs, cropAll W H pfxs i bs = .ok cs := by
  induction bs generalizing i with
  | nil => exact ⟨[], rfl⟩
  | cons b bs ih =>
      obtain ⟨cs, hcs⟩ := ih (fun c hc => hbs c (List.mem_cons.mpr (Or.inr hc))) (i + 1)
      unfold cropAll
      rw [crop_bubble_region_ok hW hH (hbs b (List.mem_cons.mpr (Or.inl rfl))), hcs]
      exact ⟨_, rfl⟩

/-! ## Text wrapping (`textwrap.fill(text, width=max_chars_per_line)`, line 383)

`textwrap` is an external library; it is modelled as: split the text on
whitespace (default `replace_whitespace`/`drop_whitespace` collapse runs and
drop empty words), break words longer than the line width into width-sized
chunks (`break_long_words=True`), pack words greedily counting one separating
space, and join with newlines.  `fill` of an empty or whitespace-only string
is `""`, whose `.split('\n')` is `[""]`. -/

def chunkCharsGo (w : Nat) : List Char → List Char → List (List Char)
  | [], cur => if cur = [] then [] else [cur.reverse]
  | c :: cs, cur =>
    if cur.length + 1 = w then (cur.reverse ++ [c]) :: chunkCharsGo w cs []
    else chunkCharsGo w cs (c :: cur)

/-- Break a long word into `w`-sized chunks (textwrap's
`break_long_words=True`). -/
def chunkChars (w : Nat) (cs : List Char) : List (List Char) :=
  if w = 0 then (if cs = [] then [] else [cs]) else chunkCharsGo w cs []

def splitWordsGo : List Char → List Char → List String
  | [], cur => if cur = [] then [] else [String.mk cur.reverse]
  | c :: cs, cur =>
    if c.isWhitespace then
      if cur = [] then splitWordsGo cs []
      else String.mk cur.reverse :: splitWordsGo cs []
    else splitWordsGo cs (c :: cur)

/-- The text split into maximal whitespace-free words. -/
def splitWords (s : String) : List String :=
  splitWordsGo s.toList []

def greedyPack (w : Nat) : List String → String → List String
  | [], cur => [cur]
  | word :: rest, cur =>
    if cur = "" then greedyPack w rest word
    else if cur.length + 1 + word.length ≤ w then greedyPack w rest (cur ++ " " ++ word)
    else cur :: greedyPack w rest word

/-- Model of `textwrap.fill(text, width=w).split('\n')` for `w > 0`. -/
def textwrapFillLines (w : Nat) (s : String) : List String :=
  greedyPack w (((splitWords s).map fun t => (chunkChars w t.toList).map String.mk).flatten) ""

/-! ## Adaptive text renderer (`draw_text_in_bubble`, lines 352–420)

Pixel colors are strings, an image is a pixel-indexed color map.  Glyph
rasterization and glyph metrics of the PIL font are abstract parameters:
`textWidth line fontSize` is `draw.textbbox((0,0), line, font)` width, and
`glyph line fontSize anchor p` tells whether `draw.text(anchor, line, font)`
paints pixel `p`.  Font loading (lines 366–376) cannot raise — failures fall
back to `ImageFont.load_default()` — so the font is part of the abstract
metric. -/

abbrev Image := Int × Int → String

structure TextMeasure where
  textWidth : String → Nat → Int
  glyph : String → Nat → ℚ × ℚ → Int × Int → Bool

inductive DrawOp where
  | ellipse (b : Bubble)
  | text (line : String) (fontSize : Nat) (ax ay : ℚ) (fill : String)
deriving DecidableEq, Repr

/-- The outline pass of lines 404–407: offsets `(dx, dy)` with `dx, dy ∈
{-1, 0, 1}`, `(dx, dy) ≠ (0, 0)`, in loop order. -/
def outlineOffsets : List (Int × Int) :=
  [(-1, -1), (-1, 0), (-1, 1), (0, -1), (0, 1), (1, -1), (1, 0), (1, 1)]

/-- One wrapped line: white outline at the 8 neighbours, then black fill
(lines 402–410). -/
def lineOps (line : String) (fs : Nat) (tx ty : ℚ) : List DrawOp :=
  (outlineOffsets.map fun d => DrawOp.text line fs (tx + (d.1 : ℚ)) (ty + (d.2 : ℚ)) "white") ++
    [DrawOp.text line fs tx ty "black"]

/-- The fitting branch (lines 393–414): each line is horizontally centred via
the glyph metric and lines advance by `line_height = 1.2 · fontSize`. -/
def fittedLineOps (tm : TextMeasure) (b : Bubble) (fs : Nat) :
    List String → ℚ → List DrawOp
  | [], _ => []
  | line :: rest, ty =>
    lineOps line fs ((b.x : ℚ) + ((b.width : ℚ) - (tm.textWidth line fs : ℚ)) / 2) ty ++
      fittedLineOps tm b fs rest (ty + 6 * (fs : ℚ) / 5)

structure DrawTextResult where
  fits : Bool
  ops : List DrawOp
  iterations : Nat
deriving DecidableEq, Repr

/-- The shrink-to-fit loop (lines 365–420) starting at font size `fs`:
* `max_chars_per_line = int(width * 0.8 / (fontSize * 0.6)) = ⌊4·width / (3·fs)⌋`;
* wrap only when that is positive, else a single unwrapped line;
* the fit test `len(wrapped) * 1.2 * fs ≤ height * 0.8` is scaled by 5 to the
  integer test `6 * len * fs ≤ 4 * height`;
* on failure the font size drops by 2 while `fontSize > 8`;
* the overflow exit draws `text[:20] + "..."` at `(x + 5, y + 5)` with the font
  built in the last loop iteration (size `fs + 2`; every call site starts at
  `max_font_size = 40 > 8`, so the loop body always ran) and reports `False`.
`iterations` counts executed loop bodies. -/
def maxCharsPerLine (b : Bubble) (fs : Nat) : Int :=
  4 * b.width / (3 * (fs : Int))

/-- Lines 378–385: the wrapped lines tried at font size `fs`. -/
def wrappedLines (text : String) (b : Bubble) (fs : Nat) : List String :=
  if 0 < maxCharsPerLine b fs then textwrapFillLines (maxCharsPerLine b fs).toNat text
  else [text]

/-- Line 392: does the wrapped text fit at font size `fs`? -/
def fitsAt (text : String) (b : Bubble) (fs : Nat) : Bool :=
  6 * ((wrappedLines text b fs).length : Int) * (fs : Int) ≤ 4 * b.height

/-- One loop body (lines 365–416) per remaining font size, largest first.
When all sizes fail, the overflow exit (lines 418–420) draws
`text[:20] + "..."` at `(x + 5, y + 5)` with the font built in the last loop
iteration — size 10, the smallest tried — and reports `False`.  `iterations`
counts executed loop bodies. -/
def drawTextGo (tm : TextMeasure) (text : String) (b : Bubble) :
    List Nat → DrawTextResult
  | [] =>
    ⟨false,
     [DrawOp.text (text.take 20 ++ "...") 10 ((b.x : ℚ) + 5) ((b.y : ℚ) + 5) "black"],
     0⟩
  | fs :: rest =>
    if fitsAt text b fs then
      ⟨true,
       fittedLineOps tm b fs (wrappedLines text b fs)
         ((b.y : ℚ) +
           ((b.height : ℚ) - ((wrappedLines text b fs).length : ℚ) * (6 * (fs : ℚ) / 5)) / 2),
       1⟩
    else
      ⟨(drawTextGo tm text b rest).fits, (drawTextGo tm text b rest).ops,
       (drawTextGo tm text b rest).iterations + 1⟩

/-- The font sizes `font_size = 40; while font_size > 8: …; font_size -= 2`
tries, in order: `40, 38, …, 10`. -/
def triedSizes : List Nat :=
  (List.range ((40 - 8) / 2)).map fun i => 40 - 2 * i

/-- `draw_text_in_bubble` as invoked by the pipeline (line 534):
`max_font_size = 40`. -/
def draw_text_in_bubble (tm : TextMeasure) (text : String) (b : Bubble) : DrawTextResult :=
  drawTextGo tm text b triedSizes

lemma drawTextGo_iterations_le (tm : TextMeasure) (text : String) (b : Bubble)
    (sizes : List Nat) : (drawTextGo tm text b sizes).iterations ≤ sizes.length := by
  induction sizes with
  | nil => exact Nat.le_refl 0
  | cons fs rest ih =>
      unfold drawTextGo
      by_cases hf : fitsAt text b fs
      · rw [if_pos hf]
        simp
      · rw [if_neg hf]
        show (drawTextGo tm text b rest).iterations + 1 ≤ rest.length + 1
        omega

lemma drawTextGo_overflow (tm : TextMeasure) (text : String) (b : Bubble)
    (sizes : List Nat) (hfits : (drawTextGo tm text b sizes).fits = false) :
    (drawTextGo tm text b sizes).ops =
      [DrawOp.text (text.take 20 ++ "...") 10 ((b.x : ℚ) + 5) ((b.y : ℚ) + 5) "black"] := by
  induction sizes with
  | nil => rfl
  | cons fs rest ih =>
      unfold drawTextGo at hfits ⊢
      by_cases hf : fitsAt text b fs
      · rw [if_pos hf] at hfits
        exact absurd hfits (by simp)
      · rw [if_neg hf] at hfits ⊢
        exact ih hfits

/-! ## Cover shapes and the two-pass render (lines 507–537) -/

/-- The white cover ellipse of lines 512–529: centred at
`(center_x, center_y)` with semi-axes `0.98 · width/2` and `0.98 · height/2`
(`padding_factor = 0.98`).  PIL's rasterization is idealized as painting
exactly the pixels inside the closed ellipse. -/
def intSq (n : Int) : Int := n * n

/-- Pixel `p` lies inside the closed ellipse centred at
`(center_x, center_y)` with semi-axes `a = 0.98 · width/2 = 49·width/100` and
`c = 0.98 · height/2 = 49·height/100`.  The rational inequality
`dx²·c² + dy²·a² ≤ a²·c²` is written exactly over ℤ by multiplying both sides
by `100⁴`: `(dx² · (49h)² + dy² · (49w)²) · 100² ≤ (49w)² · (49h)²`. -/
def ellipseCovers (b : Bubble) (p : Int × Int) : Prop :=
  (intSq (p.1 - b.center_x) * intSq (49 * b.height) +
      intSq (p.2 - b.center_y) * intSq (49 * b.width)) * (100 * 100) ≤
    intSq (49 * b.width) * intSq (49 * b.height)

instance (b : Bubble) (p : Int × Int) : Decidable (ellipseCovers b p) := by
  unfold ellipseCovers; exact inferInstance

/-- Effect of one draw call on the image. -/
def applyOp (tm : TextMeasure) (img : Image) : DrawOp → Image
  | .ellipse b => fun p => if ellipseCovers b p then "white" else img p
  | .text line fs ax ay fill => fun p => if tm.glyph line fs (ax, ay) p then fill else img p

/-- One detected bubble together with its processing state (spec's
`BubbleRecord`): the dict keys `original_text` / `translated_text` added by the
pipeline at lines 461 and 489/497. -/
structure BubbleRecord where
  bubble : Bubble
  original_text : String
  translated_text : Option String
deriving DecidableEq, Repr

/-- First render pass (lines 512–529): a cover ellipse for every bubble whose
original text is not a sentinel. -/
def coverOps (r : BubbleRecord) : List DrawOp :=
  if isSentinel r.original_text then [] else [DrawOp.ellipse r.bubble]

/-- Second render pass (lines 531–534): text for every bubble whose
`translated_text` is truthy (present and non-empty) and not a sentinel. -/
def textOps (tm : TextMeasure) (r : BubbleRecord) : List DrawOp :=
  match r.translated_text with
  | none => []
  | some t =>
    if t = "" then []
    else if isSentinel t then []
    else (draw_text_in_bubble tm t r.bubble).ops

/-- The full two-pass render: all cover ellipses first, then all texts. -/
def render_page (tm : TextMeasure) (img : Image) (records : List BubbleRecord) : Image :=
  ((records.map coverOps).flatten ++ (records.map (textOps tm)).flatten).foldl (applyOp tm) img

/-- Does draw call `op` write pixel `p`? -/
def opWrites (tm : TextMeasure) (op : DrawOp) (p : Int × Int) : Prop :=
  match op with
  | .ellipse b => ellipseCovers b p
  | .text line fs ax ay _ => tm.glyph line fs (ax, ay) p = true

/-- All pixels the render passes may write on behalf of record `r`. -/
def recordFootprint (tm : TextMeasure) (r : BubbleRecord) (p : Int × Int) : Prop :=
  ∃ op ∈ coverOps r ++ textOps tm r, opWrites tm op p

lemma applyOp_eq_of_not_writes {tm : TextMeasure} {op : DrawOp} {p : Int × Int}
    (img : Image) (h : ¬ opWrites tm op p) : applyOp tm img op p = img p := by
  cases op with
  | ellipse b => exact if_neg h
  | text line fs ax ay fill =>
      unfold applyOp
      unfold opWrites at h
      simp only [h]
      rw [if_neg]
      simpa using h

/-- A pixel written by no draw call keeps its input color. -/
lemma foldl_applyOp_eq {tm : TextMeasure} {p : Int × Int} (ops : List DrawOp)
    (img : Image) (h : ∀ op ∈ ops, ¬ opWrites tm op p) :
    (ops.foldl (applyOp tm) img) p = img p := by
  induction ops generalizing img with
  | nil => rfl
  | cons op ops ih =>
      show (ops.foldl (applyOp tm) (applyOp tm img op)) p = img p
      rw [ih (applyOp tm img op) (fun o ho => h o (List.mem_cons.mpr (Or.inr ho)))]
      exact applyOp_eq_of_not_writes img (h op (List.mem_cons.mpr (Or.inl rfl)))

/-- Pixels outside every record's footprint survive `render_page` unchanged. -/
lemma render_page_eq_of_disjoint {tm : TextMeasure} {p : Int × Int}
    (img : Image) (records : List BubbleRecord)
    (h : ∀ r ∈ records, ¬ recordFootprint tm r p) :
    render_page tm img records p = img p := by
  unfold render_page
  apply foldl_applyOp_eq
  intro op hop
  rw [List.mem_append] at hop
  rcases hop with hop | hop <;>
    · rw [List.mem_flatten] at hop
      obtain ⟨l, hl, hopl⟩ := hop
      rw [List.mem_map] at hl
      obtain ⟨r, hr, rfl⟩ := hl
      intro hw
      exact h r hr ⟨op, by simp [hopl], hw⟩

/-! ## The page pipeline (`process_comic_page_with_languages`, lines 422–543)

Lines 458–499 in the source assign, for the sorted bubble at index `i`:
`original_text := extraction_results[i]`, then either skip translation
(sentinel) setting `translated_text := original_text`, or await the `i`-th
translation task, whose value is `translate_text_async` of the translation
oracle's response for that bubble; `asyncio.gather` writes each task's result
back to its originating bubble via `translation_indices`.  `assembleRecords`
folds the two loops into one (same per-bubble net effect); the translation
oracle is indexed by sorted bubble position. -/

/-- The final state of the sorted bubble at position `i`, lines 458–499. -/
def mkRecord (b : Bubble) (exRes trRes : Except String String) : BubbleRecord :=
  { bubble := b
    original_text := extractResult exRes
    translated_text :=
      some (if isSentinel (extractResult exRes) then extractResult exRes
            else translate_text_async trRes (extractResult exRes)) }

def assembleRecords (exO trO : Nat → Except String String) :
    List Bubble → Nat → List BubbleRecord
  | [], _ => []
  | b :: bs, i => mkRecord b (exO i) (trO i) :: assembleRecords exO trO bs (i + 1)

lemma assembleRecords_length (exO trO : Nat → Except String String)
    (bs : List Bubble) (i : Nat) : (assembleRecords exO trO bs i).length = bs.length := by
  induction bs generalizing i with
  | nil => rfl
  | cons b bs ih => simp [assembleRecords, ih]

lemma assembleRecords_getElem (exO trO : Nat → Except String String) :
    ∀ (bs : List Bubble) (i j : Nat),
      (assembleRecords exO trO bs i)[j]? =
        (bs[j]?).map fun b => mkRecord b (exO (i + j)) (trO (i + j)) := by
  intro bs
  induction bs with
  | nil => intro i j; simp [assembleRecords]
  | cons b bs ih =>
      intro i j
      cases j with
      | zero => simp [assembleRecords]
      | succ j =>
          simp only [assembleRecords, List.getElem?_cons_succ]
          have harith : i + (j + 1) = (i + 1) + j := by omega
          rw [harith]
          exact ih (i + 1) j

/-- Modelled from the spec: `TranslationContext` — the class the pipeline
imports at line 23 and instantiates at line 459 — is defined nowhere in the
repository (only `MultimodalTranslationContext` exists; see the C5 theorems).
Per the spec's §3/§4.3 the store accumulates `(bubble id, original text)`
entries for every non-sentinel bubble, in reading order (lines 460–465); its
contents only feed the translation *prompt*, which the translation oracle
abstracts, so the entry list is the full observable state here. -/
def contextDelta (records : List BubbleRecord) : List (Int × String) :=
  records.filterMap fun r =>
    if isSentinel r.original_text then none
    else some (r.bubble.bubble_id, r.original_text)

/-- Result of a completed page run: the final `bubble_data` state, the image
saved to `output_path`, and the context entries accumulated for the page. -/
structure PageResult where
  records : List BubbleRecord
  rendered : Image
  context_entries : List (Int × String)

/-- `process_comic_page_with_languages` (lines 422–543).

Arguments model the environment: `modelLoaded` is whether
`load_speech_bubble_model` succeeded (line 426–429: on failure the function
logs and returns `None`); `boxes` is the detector's raw output for the page
at `conf_threshold=0.3`; `W × H` the page image size and `img` its pixels;
`pfxs i` the unique temp-file prefix drawn for the `i`-th crop; `exO i` /
`trO i` the chat-completion outcomes for the `i`-th sorted bubble's
extraction / translation calls; `tm` the font metrics.

`.error` = an exception escapes the function (only the uncaught `cv2.error`
of an empty crop can, lines 449–451); `.ok none` = an early `return` with no
output image written (lines 426–429 and 438–440); `.ok (some res)` = the run
completed and saved `res.rendered` to `output_path` (line 537). -/
def process_comic_page_with_languages (modelLoaded : Bool) (boxes : List RawBox)
    (W H : Int) (img : Image) (pfxs : Nat → String)
    (exO trO : Nat → Except String String) (tm : TextMeasure) :
    Except String (Option PageResult) :=
  if modelLoaded = false then .ok none
  else
    if (pySortByYX (detect_speech_bubbles boxes)).isEmpty then .ok none
    else
      match cropAll W H pfxs 0 (pySortByYX (detect_speech_bubbles boxes)) with
      | .error e => .error e
      | .ok _ =>
        .ok (some
          { records := assembleRecords exO trO (pySortByYX (detect_speech_bubbles boxes)) 0
            rendered :=
              render_page tm img
                (assembleRecords exO trO (pySortByYX (detect_speech_bubbles boxes)) 0)
            context_entries :=
              contextDelta
                (assembleRecords exO trO (pySortByYX (detect_speech_bubbles boxes)) 0) })

/-- Inversion of a completed run: the result components are the assembled
records, their render, and their context entries. -/
lemma process_ok_some {modelLoaded : Bool} {boxes : List RawBox} {W H : Int}
    {img : Image} {pfxs : Nat → String} {exO trO : Nat → Except String String}
    {tm : TextMeasure} {res : PageResult}
    (h : process_comic_page_with_languages modelLoaded boxes W H img pfxs exO trO tm =
      .ok (some res)) :
    res.records = assembleRecords exO trO (pySortByYX (detect_speech_bubbles boxes)) 0 ∧
      res.rendered = render_page tm img res.records ∧
      res.context_entries = contextDelta res.records := by
  unfold process_comic_page_with_languages at h
  split at h
  · simp at h
  · split at h
    · simp at h
    · split at h
      · simp at h
      · rw [Except.ok.injEq, Option.some.injEq] at h
        subst h
        exact ⟨rfl, rfl, rfl⟩

/-! ## Module-level name resolution (claim C5)

`translate_and_fill_bubbles_multilang.py` line 23 runs
`from translation_context import TranslationContext` when the module is
imported, and `process_comic_page` in `translate_and_fill_bubbles.py` line 270
evaluates the global name `TranslationContext` as its first statement after
client construction — before loading the detector or touching any bubble.
We model Python's `from`-import (raises `ImportError` when the module does not
bind the name) and global-name resolution (raises `NameError` when neither the
module globals nor the builtins bind the name) over the exact sets of names
the repository's files define. -/

/-- The names bound at top level by `translation_context.py`: its imports
(lines 8–13) and its four `class` statements (lines 16, 26, 40, 49).  The
dataclasses define no user methods; `MultimodalTranslationContext`'s methods
are listed for the `get_context_prompt` check. -/
def translation_context_module_names : List String :=
  ["json", "base64", "os", "List", "Dict", "Tuple", "Optional", "dataclass",
   "asdict", "LlamaAPIClient", "CharacterInfo", "PageContext", "BubbleContext",
   "MultimodalTranslationContext"]

/-- Every `class` statement in the repository with the methods it defines
(`translation_context.py` lines 16/26/40/49, `manga_pdf_context.py` line 19;
no other file contains a `class` statement). -/
def codebase_classes : List (String × List String) :=
  [("CharacterInfo", []),
   ("PageContext", []),
   ("BubbleContext", []),
   ("MultimodalTranslationContext",
    ["__init__", "analyze_page_context", "identify_speaker_for_bubble",
     "add_bubble_to_context", "get_enhanced_translation_prompt", "_encode_image",
     "_create_page_context_from_analysis", "_update_context_from_page_analysis",
     "_update_character_info", "_parse_text_analysis", "save_context",
     "load_context"]),
   ("MangaAnalyzer",
    ["__init__", "encode_image_from_pil", "analyze_page_with_context",
     "update_context", "extract_characters", "extract_plot_points",
     "analyze_manga_pdf", "generate_final_analysis", "extract_themes",
     "extract_character_arcs"])]

/-- `from <module> import <name>`: binds the name or raises `ImportError`. -/
def python_from_import (module_names : List String) (name : String) :
    Except String Unit :=
  if name ∈ module_names then .ok () else .error "ImportError"

/-- Importing `translate_and_fill_bubbles_multilang` executes line 23; every
use of its page pipeline (the web app imports it at `app.py` line 20) runs
this first. -/
def multilang_module_import : Except String Unit :=
  python_from_import translation_context_module_names "TranslationContext"

/-- The names bound at top level by `translate_and_fill_bubbles.py` (imports,
lines 1–12, and its `def` statements); `TranslationContext` is not a Python
builtin, so line 270's lookup consults exactly these. -/
def bubbles_module_names : List String :=
  ["os", "json", "base64", "List", "Dict", "Tuple", "Image", "ImageDraw",
   "ImageFont", "cv2", "np", "YOLO", "LlamaAPIClient", "load_dotenv",
   "textwrap", "MultimodalTranslationContext", "load_speech_bubble_model",
   "detect_speech_bubbles", "encode_image", "crop_bubble_region",
   "extract_text_from_bubble", "translate_text", "draw_text_in_bubble",
   "process_comic_page"]

/-- Evaluation of a global name: raises `NameError` if unbound. -/
def python_name_lookup (globalNames : List String) (name : String) :
    Except String Unit :=
  if name ∈ globalNames then .ok () else .error "NameError"

/-- The `context_manager = TranslationContext()` statement
(`translate_and_fill_bubbles.py` line 270), executed before
`load_speech_bubble_model` (line 273) and before any detection or bubble
processing. -/
def process_comic_page_context_init : Except String Unit :=
  python_name_lookup bubbles_module_names "TranslationContext"

/-! ## The context store (`translation_context.py`) and its persistence

The dataclasses of lines 15–47 and the store state of lines 55–63 (the
`LlamaAPIClient` handle is an external collaborator and carries no persisted
state).  Python `Dict`s are insertion-ordered association lists.  JSON values
(`json.dump` / `json.load` of lines 380–386) are modelled structurally; the
store's fields hold only strings, integers, lists, string-keyed dicts and
`Optional[str]`, all of which JSON represents exactly. -/

structure CharacterInfo where
  name : String
  visual_description : String
  speech_patterns : List String
  relationships : List (String × String)
  emotions_shown : List String
  first_appearance_page : Int
deriving DecidableEq, Repr

structure PageContext where
  page_number : Int
  location : String
  mood : String
  visual_elements : List String
  time_context : String
  characters_present : List String
  scene_description : String
  genre : String
  panel_layout : String
  key_events : List String
deriving DecidableEq, Repr

structure BubbleContext where
  bubble_id : Int
  original_text : String
  translated_text : Option String
  speaker : Option String
  emotion : String
  page_number : Int
deriving DecidableEq, Repr

/-- The mutable state of `MultimodalTranslationContext` (lines 55–63). -/
structure MultimodalTranslationContext where
  characters : List (String × CharacterInfo)
  page_contexts : List PageContext
  bubble_contexts : List BubbleContext
  story_arc : String
  genre : String
  current_page : Int
  current_page_context : Option PageContext

inductive PyJson where
  | null
  | num (n : Int)
  | str (s : String)
  | arr (items : List PyJson)
  | obj (fields : List (String × PyJson))

def lookupField : List (String × PyJson) → String → Option PyJson
  | [], _ => none
  | (k, v) :: rest, key => if k = key then some v else lookupField rest key

/-- `data.get(key, default)` on a JSON object. -/
def PyJson.getD (j : PyJson) (key : String) (d : PyJson) : PyJson :=
  match j with
  | .obj fields => (lookupField fields key).getD d
  | _ => d

def encodeStrList (l : List String) : PyJson :=
  .arr (l.map .str)

def encodeStrDict (l : List (String × String)) : PyJson :=
  .obj (l.map fun kv => (kv.1, .str kv.2))

def encodeOptStr : Option String → PyJson
  | none => .null
  | some s => .str s

/-- `asdict` of a `CharacterInfo` (declaration field order). -/
def encodeCharacterInfo (c : CharacterInfo) : PyJson :=
  .obj [("name", .str c.name),
        ("visual_description", .str c.visual_description),
        ("speech_patterns", encodeStrList c.speech_patterns),
        ("relationships", encodeStrDict c.relationships),
        ("emotions_shown", encodeStrList c.emotions_shown),
        ("first_appearance_page", .num c.first_appearance_page)]

/-- `asdict` of a `PageContext`. -/
def encodePageContext (p : PageContext) : PyJson :=
  .obj [("page_number", .num p.page_number),
        ("location", .str p.location),
        ("mood", .str p.mood),
        ("visual_elements", encodeStrList p.visual_elements),
        ("time_context", .str p.time_context),
        ("characters_present", encodeStrList p.characters_present),
        ("scene_description", .str p.scene_description),
        ("genre", .str p.genre),
        ("panel_layout", .str p.panel_layout),
        ("key_events", encodeStrList p.key_events)]

/-- `asdict` of a `BubbleContext`. -/
def encodeBubbleContext (bc : BubbleContext) : PyJson :=
  .obj [("bubble_id", .num bc.bubble_id),
        ("original_text", .str bc.original_text),
        ("translated_text", encodeOptStr bc.translated_text),
        ("speaker", encodeOptStr bc.speaker),
        ("emotion", .str bc.emotion),
        ("page_number", .num bc.page_number)]

/-- `save_context` (lines 369–381): the JSON record written to `filepath`. -/
def save_context (ctx : MultimodalTranslationContext) : PyJson :=
  .obj [("characters", .obj (ctx.characters.map fun kv => (kv.1, encodeCharacterInfo kv.2))),
        ("page_contexts", .arr (ctx.page_contexts.map encodePageContext)),
        ("bubble_contexts", .arr (ctx.bubble_contexts.map encodeBubbleContext)),
        ("story_arc", .str ctx.story_arc),
        ("genre", .str ctx.genre),
        ("current_page", .num ctx.current_page)]

def decodeStr : PyJson → Option String
  | .str s => some s
  | _ => none

def decodeOptStr : PyJson → Option (Option String)
  | .null => some none
  | .str s => some (some s)
  | _ => none

def decodeNum : PyJson → Option Int
  | .num n => some n
  | _ => none

def decodeStrListAux : List PyJson → Option (List String)
  | [] => some []
  | j :: rest =>
    match j with
    | .str s => (decodeStrListAux rest).map fun l => s :: l
    | _ => none

def decodeStrList : PyJson → Option (List String)
  | .arr items => decodeStrListAux items
  | _ => none

def decodeStrDictAux : List (String × PyJson) → Option (List (String × String))
  | [] => some []
  | (k, v) :: rest =>
    match v with
    | .str s => (decodeStrDictAux rest).map fun l => (k, s) :: l
    | _ => none

def decodeStrDict : PyJson → Option (List (String × String))
  | .obj fields => decodeStrDictAux fields
  | _ => none

/-- `CharacterInfo(**char_data)` (line 391): field-by-field reconstruction. -/
def decodeCharacterInfo (j : PyJson) : Option CharacterInfo :=
  match j with
  | .obj fields => do
    let name ← (lookupField fields "name").bind decodeStr
    let vd ← (lookupField fields "visual_description").bind decodeStr
    let sp ← (lookupField fields "speech_patterns").bind decodeStrList
    let rel ← (lookupField fields "relationships").bind decodeStrDict
    let em ← (lookupField fields "emotions_shown").bind decodeStrList
    let fap ← (lookupField fields "first_appearance_page").bind decodeNum
    some ⟨name, vd, sp, rel, em, fap⟩
  | _ => none

/-- `PageContext(**page_data)` (line 394). -/
def decodePageContext (j : PyJson) : Option PageContext :=
  match j with
  | .obj fields => do
    let pn ← (lookupField fields "page_number").bind decodeNum
    let loc ← (lookupField fields "location").bind decodeStr
    let mood ← (lookupField fields "mood").bind decodeStr
    let ve ← (lookupField fields "visual_elements").bind decodeStrList
    let tc ← (lookupField fields "time_context").bind decodeStr
    let cp ← (lookupField fields "characters_present").bind decodeStrList
    let sd ← (lookupField fields "scene_description").bind decodeStr
    let g ← (lookupField fields "genre").bind decodeStr
    let pl ← (lookupField fields "panel_layout").bind decodeStr
    let ke ← (lookupField fields "key_events").bind decodeStrList
    some ⟨pn, loc, mood, ve, tc, cp, sd, g, pl, ke⟩
  | _ => none

/-- `BubbleContext(**bubble_data)` (line 397). -/
def decodeBubbleContext (j : PyJson) : Option BubbleContext :=
  match j with
  | .obj fields => do
    let bid ← (lookupField fields "bubble_id").bind decodeNum
    let ot ← (lookupField fields "original_text").bind decodeStr
    let tt ← (lookupField fields "translated_text").bind decodeOptStr
    let sp ← (lookupField fields "speaker").bind decodeOptStr
    let em ← (lookupField fields "emotion").bind decodeStr
    let pn ← (lookupField fields "page_number").bind decodeNum
    some ⟨bid, ot, tt, sp, em, pn⟩
  | _ => none

def decodeCharactersAux : List (String × PyJson) → Option (List (String × CharacterInfo))
  | [] => some []
  | (k, v) :: rest => do
    let c ← decodeCharacterInfo v
    let cs ← decodeCharactersAux rest
    some ((k, c) :: cs)

def decodePageContextsAux : List PyJson → Option (List PageContext)
  | [] => some []
  | j :: rest => do
    let p ← decodePageContext j
    let ps ← decodePageContextsAux rest
    some (p :: ps)

def decodeBubbleContextsAux : List PyJson → Option (List BubbleContext)
  | [] => some []
  | j :: rest => do
    let bc ← decodeBubbleContext j
    let bcs ← decodeBubbleContextsAux rest
    some (bc :: bcs)

/-- `load_context` (lines 383–405), rebinding the store's fields from the
loaded record (`.get` defaults as in the source; `current_page_context` is
reassigned only when the loaded `page_contexts` list is non-empty, lines
404–405).  `none` models a raised reconstruction error. -/
def load_context (self : MultimodalTranslationContext) (j : PyJson) :
    Option MultimodalTranslationContext := do
  let chars ←
    match j.getD "characters" (.obj []) with
    | .obj fields => decodeCharactersAux fields
    | _ => none
  let pcs ←
    match j.getD "page_contexts" (.arr []) with
    | .arr items => decodePageContextsAux items
    | _ => none
  let bcs ←
    match j.getD "bubble_contexts" (.arr []) with
    | .arr items => decodeBubbleContextsAux items
    | _ => none
  let sa ← decodeStr (j.getD "story_arc" (.str ""))
  let g ← decodeStr (j.getD "genre" (.str ""))
  let cp ← decodeNum (j.getD "current_page" (.num 1))
  some { characters := chars, page_contexts := pcs, bubble_contexts := bcs,
         story_arc := sa, genre := g, current_page := cp,
         current_page_context :=
           if pcs.isEmpty then self.current_page_context else pcs.getLast? }

lemma decodeStrListAux_encode (l : List String) :
    decodeStrListAux (l.map PyJson.str) = some l := by
  induction l with
  | nil => rfl
  | cons s l ih => simp [decodeStrListAux, ih]

lemma decodeStrDictAux_encode (l : List (String × String)) :
    decodeStrDictAux (l.map fun kv => (kv.1, PyJson.str kv.2)) = some l := by
  induction l with
  | nil => rfl
  | cons kv l ih => simp [decodeStrDictAux, ih]

lemma decodeOptStr_encode (o : Option String) :
    decodeOptStr (encodeOptStr o) = some o := by
  cases o <;> rfl

lemma decodeCharacterInfo_encode (c : CharacterInfo) :
    decodeCharacterInfo (encodeCharacterInfo c) = some c := by
  simp [encodeCharacterInfo, decodeCharacterInfo, lookupField, decodeStr,
    decodeStrList, encodeStrList, decodeStrListAux_encode, decodeStrDict,
    encodeStrDict, decodeStrDictAux_encode, decodeNum, Option.bind]

lemma decodePageContext_encode (p : PageContext) :
    decodePageContext (encodePageContext p) = some p := by
  simp [encodePageContext, decodePageContext, lookupField, decodeStr,
    decodeStrList, encodeStrList, decodeStrListAux_encode, decodeNum,
    Option.bind]

lemma decodeBubbleContext_encode (bc : BubbleContext) :
    decodeBubbleContext (encodeBubbleContext bc) = some bc := by
  simp [encodeBubbleContext, decodeBubbleContext, lookupField, decodeStr,
    decodeOptStr_encode, decodeNum, Option.bind]

lemma decodeCharactersAux_encode (l : List (String × CharacterInfo)) :
    decodeCharactersAux (l.map fun kv => (kv.1, encodeCharacterInfo kv.2)) = some l := by
  induction l with
  | nil => rfl
  | cons kv l ih => simp [decodeCharactersAux, decodeCharacterInfo_encode, ih]

lemma decodePageContextsAux_encode (l : List PageContext) :
    decodePageContextsAux (l.map encodePageContext) = some l := by
  induction l with
  | nil => rfl
  | cons p l ih => simp [decodePageContextsAux, decodePageContext_encode, ih]

lemma decodeBubbleContextsAux_encode (l : List BubbleContext) :
    decodeBubbleContextsAux (l.map encodeBubbleContext) = some l := by
  induction l with
  | nil => rfl
  | cons bc l ih => simp [decodeBubbleContextsAux, decodeBubbleContext_encode, ih]

/-! ## Claim theorems -/

/-- C1: for every detector output — bubble ids assigned 1-based in detection
order, positions arbitrary — the region list used by
`process_comic_page_with_languages` after sorting and before any extraction
call (`pySortByYX (detect_speech_bubbles boxes)`, line 436) is ordered so that
`(y, x)` is non-decreasing lexicographically, and any `(y, x)` ties are broken
by the detector-assigned bubble id. -/
theorem C1_reading_order_total (boxes : List RawBox) :
    (pySortByYX (detect_speech_bubbles boxes)).Pairwise
      (fun a b => sortKeyLe a b ∧ (sameKey a b → a.bubble_id < b.bubble_id)) := by
  have h1 := pairwise_pySortByYX (detect_speech_bubbles boxes)
  have h2 := pairwise_idTie_pySort (detect_ids_sorted boxes)
  exact h1.and h2

/-- C5: the page pipeline cannot reach bubble processing.  Importing
`translate_and_fill_bubbles_multilang` raises `ImportError` at line 23 (its
`from translation_context import TranslationContext`), so every invocation of
`process_comic_page_with_languages` fails before anything runs;
`process_comic_page` in `translate_and_fill_bubbles.py` reaches the same name
at line 270 and raises `NameError` before loading the detector or touching any
bubble; no class named `TranslationContext` is defined anywhere in the
codebase, and no class defines a `get_context_prompt` method. -/
theorem C5_translation_context_missing :
    multilang_module_import = .error "ImportError" ∧
      process_comic_page_context_init = .error "NameError" ∧
      "TranslationContext" ∉ codebase_classes.map Prod.fst ∧
      ∀ c ∈ codebase_classes, "get_context_prompt" ∉ c.2 :=
  ⟨rfl, rfl, by decide, by decide⟩

/-- C7: for every bubble, glyph metric and translated text — including the
empty string and whitespace-only strings — the shrink-to-fit loop of
`draw_text_in_bubble` executes at most `(max_font_size − floor)/2 + 1 =
(40 − 8)/2 + 1` bodies (the embedding is total, so in particular it never
raises), and when no tried size fits it draws exactly the first 20 characters
plus `"..."` at the fixed offset `(x + 5, y + 5)` inside the bubble and
returns `False` to report the bubble as not fully rendered. -/
theorem C7_shrink_to_fit (tm : TextMeasure) (text : String) (b : Bubble) :
    (draw_text_in_bubble tm text b).iterations ≤ (40 - 8) / 2 + 1 ∧
      ((draw_text_in_bubble tm text b).fits = false →
        (draw_text_in_bubble tm text b).ops =
          [DrawOp.text (text.take 20 ++ "...") 10 ((b.x : ℚ) + 5) ((b.y : ℚ) + 5) "black"]) := by
  constructor
  · have h := drawTextGo_iterations_le tm text b triedSizes
    have hlen : triedSizes.length = 16 := by decide
    unfold draw_text_in_bubble
    omega
  · exact drawTextGo_overflow tm text b triedSizes

/-- Degenerate inputs for the renderer witnesses: a width-10, height-0 bubble
(no size can fit a positive text height in `0.8 · 0`). -/
def wBubbleTiny : Bubble := ⟨1, 0, 0, 10, 0, 1, 5, 0⟩

/-- Trivial glyph metric: zero-width text, no pixels painted. -/
def tm0 : TextMeasure := ⟨fun _ _ => 0, fun _ _ _ _ => false⟩

/-- C7 witness: on a whitespace-only translated text and a zero-height bubble
no size fits, and the theorem yields the overflow draw. -/
theorem C7_shrink_to_fit_witness :
    (draw_text_in_bubble tm0 "   " wBubbleTiny).ops =
      [DrawOp.text ("   ".take 20 ++ "...") 10 ((wBubbleTiny.x : ℚ) + 5)
        ((wBubbleTiny.y : ℚ) + 5) "black"] :=
  (C7_shrink_to_fit tm0 "   " wBubbleTiny).2 (by decide)

/-- C9: for every state of the `MultimodalTranslationContext` store (and every
pre-load state of the store instance doing the loading), `save_context`
followed by `load_context` restores an identical bubble-context list (hence
identical count and entry ordering), identical character entries (hence an
identical character set), and identical values of every exposed field: page
contexts, `story_arc`, `genre`, `current_page` — the round-trip is lossless. -/
theorem C9_save_load_round_trip (ctx self : MultimodalTranslationContext) :
    ∃ loaded, load_context self (save_context ctx) = some loaded ∧
      loaded.characters = ctx.characters ∧
      loaded.page_contexts = ctx.page_contexts ∧
      loaded.bubble_contexts = ctx.bubble_contexts ∧
      loaded.story_arc = ctx.story_arc ∧
      loaded.genre = ctx.genre ∧
      loaded.current_page = ctx.current_page := by
  refine ⟨{ characters := ctx.characters, page_contexts := ctx.page_contexts,
            bubble_contexts := ctx.bubble_contexts, story_arc := ctx.story_arc,
            genre := ctx.genre, current_page := ctx.current_page,
            current_page_context :=
              if ctx.page_contexts.isEmpty then self.current_page_context
              else ctx.page_contexts.getLast? }, ?_, rfl, rfl, rfl, rfl, rfl, rfl⟩
  simp [load_context, save_context, PyJson.getD, lookupField,
    decodeCharactersAux_encode, decodePageContextsAux_encode,
    decodeBubbleContextsAux_encode, decodeStr, decodeNum, Option.bind]

/-- A constant test page image. -/
def inkImg : Image := fun _ => "ink"

def pfx0 : Nat → String := fun i => toString i

def exO0 : Nat → Except String String := fun _ => .ok "HI"

def trO0 : Nat → Except String String := fun _ => .ok "PRIVET"

/-- C4 counterexample: on a page with zero detections the pipeline executes
`return` at lines 438–440 — Python `None`, no output image written, no context
created.  No completed result exists, so in particular the pipeline does not
return the original image, and there is no rendered output equal to the input
image. -/
theorem C4_counterexample :
    process_comic_page_with_languages true [] 100 100 inkImg pfx0 exO0 trO0 tm0 =
        .ok none ∧
      ¬ ∃ res,
          process_comic_page_with_languages true [] 100 100 inkImg pfx0 exO0 trO0 tm0 =
              .ok (some res) ∧
            res.rendered = inkImg ∧ res.context_entries = [] := by
  constructor
  · rfl
  · rintro ⟨res, h, -, -⟩
    rw [show process_comic_page_with_languages true [] 100 100 inkImg pfx0 exO0 trO0 tm0 =
      Except.ok none from rfl] at h
    simp at h

/-- C4 (amended): for every page with zero detections (and loaded detector),
the pipeline returns early without error — Python `None`, modelled `.ok none`
— writing no output image (the input image is left untouched on disk) and
creating no translation context; the extraction, translation and rendering
stages are all skipped. -/
theorem C4_amended_zero_detections (W H : Int) (img : Image) (pfxs : Nat → String)
    (exO trO : Nat → Except String String) (tm : TextMeasure) :
    process_comic_page_with_languages true [] W H img pfxs exO trO tm = .ok none :=
  rfl

/-- C10: for every bubble's temp crop file (`crop_bubble_region`'s
`temp_bubble_{prefix}_{id}.png`), every file-system state containing it, and
every outcome of the extraction call — success, failure or timeout (`.error`)
— `extract_text_from_bubble_async` resolves without an escaping exception and
the temp file has been deleted by the time it resolves. -/
theorem C10_temp_file_cleanup (pfx : String) (id : Int) (fsys : Finset String)
    (oracle : Except String String) (h : tempPath pfx id ∈ fsys) :
    ∃ fsys2 result,
      extract_text_from_bubble_async fsys (tempPath pfx id) oracle = .ok (fsys2, result) ∧
        tempPath pfx id ∉ fsys2 :=
  ⟨fsys.erase (tempPath pfx id), extractResult oracle, extract_text_value h oracle,
    Finset.not_mem_erase _ _⟩

/-- C10 witness: a concrete temp file, cleaned up on the failure path. -/
theorem C10_temp_file_cleanup_witness :
    ∃ fsys2 result,
      extract_text_from_bubble_async {tempPath "ab" 1} (tempPath "ab" 1)
          (.error "timeout") = .ok (fsys2, result) ∧
        tempPath "ab" 1 ∉ fsys2 :=
  C10_temp_file_cleanup "ab" 1 {tempPath "ab" 1} (.error "timeout")
    (Finset.mem_singleton.mpr rfl)

/-- C8: if the detector produces a degenerate (zero-area) bounding box for one
of its (in-page) regions, the extraction fan-out still completes with no
escaping exception — the 10px crop padding makes the clamped crop non-empty,
so `cv2.imwrite` cannot raise — and every region, the degenerate one included,
resolves to exactly its own task's value: the stripped response on success and
the sentinel `"ERROR"` when its own call fails; the other regions' extractions
complete unaffected. -/
theorem C8_degenerate_box_graceful (W H : Int) (pfxs : Nat → String)
    (exO : Nat → Except String String) (bubbles : List Bubble) (i : Nat)
    (hW : 1 ≤ W) (hH : 1 ≤ H) (hin : ∀ b ∈ bubbles, bubbleInBounds W H b)
    (bi : Bubble) (hbi : bubbles[i]? = some bi)
    (hdeg : bi.width = 0 ∨ bi.height = 0) :
    ∃ results : List String,
      extractionPhase W H pfxs exO bubbles = .ok results ∧
        results.length = bubbles.length ∧
        (∀ j, j < bubbles.length → results[j]? = some (extractResult (exO j))) ∧
        (∀ e, exO i = .error e → results[i]? = some "ERROR") := by
  obtain ⟨cs, hcs⟩ := cropAll_ok hW hH bubbles hin 0
  have hi : i < bubbles.length := by
    by_contra hge
    rw [List.getElem?_eq_none (by omega)] at hbi
    simp at hbi
  refine ⟨(List.range bubbles.length).map fun j => extractResult (exO j), ?_, by simp, ?_, ?_⟩
  · unfold extractionPhase
    rw [hcs]
  · intro j hj
    rw [List.getElem?_map, List.getElem?_range hj]
    rfl
  · intro e he
    rw [List.getElem?_map, List.getElem?_range hi]
    simp [extractResult, he]

def wBubbleA : Bubble := ⟨1, 5, 5, 20, 10, 1, 15, 10⟩

/-- A zero-area detection (a point box inside the page). -/
def wBubbleDeg : Bubble := ⟨2, 30, 40, 0, 0, 1, 30, 40⟩

/-- Extraction oracle that times out exactly on the degenerate region. -/
def exOfail1 : Nat → Except String String :=
  fun j => if j = 1 then .error "timeout" else .ok " HI "

/-- C8 witness: a normal and a zero-area region; the batch completes, the
degenerate region's failed call yields `"ERROR"`, the other region extracts. -/
theorem C8_degenerate_box_graceful_witness :
    ∃ results : List String,
      extractionPhase 100 100 pfx0 exOfail1 [wBubbleA, wBubbleDeg] = .ok results ∧
        results.length = ([wBubbleA, wBubbleDeg] : List Bubble).length ∧
        (∀ j, j < ([wBubbleA, wBubbleDeg] : List Bubble).length →
          results[j]? = some (extractResult (exOfail1 j))) ∧
        (∀ e, exOfail1 1 = .error e → results[1]? = some "ERROR") :=
  C8_degenerate_box_graceful 100 100 pfx0 exOfail1 [wBubbleA, wBubbleDeg] 1
    (by decide) (by decide) (by decide) wBubbleDeg rfl (by decide)

/-- The detector reports boxes inside the page: `0 ≤ x1 ≤ x2 ≤ W`,
`0 ≤ y1 ≤ y2 ≤ H`. -/
def rawInBounds (W H : Int) (r : RawBox) : Prop :=
  0 ≤ r.x1 ∧ r.x1 ≤ r.x2 ∧ r.x2 ≤ W ∧ 0 ≤ r.y1 ∧ r.y1 ≤ r.y2 ∧ r.y2 ≤ H

instance (W H : Int) (r : RawBox) : Decidable (rawInBounds W H r) := by
  unfold rawInBounds; exact inferInstance

lemma mkBubble_inBounds {W H : Int} {r : RawBox} (i : Nat) (h : rawInBounds W H r) :
    bubbleInBounds W H (mkBubble i r) := by
  unfold rawInBounds at h
  unfold bubbleInBounds mkBubble
  simp only []
  omega

lemma detectFrom_inBounds {W H : Int} {boxes : List RawBox}
    (h : ∀ r ∈ boxes, rawInBounds W H r) (i : Nat) :
    ∀ b ∈ detectFrom i boxes, bubbleInBounds W H b := by
  induction boxes generalizing i with
  | nil => intro b hb; simp [detectFrom] at hb
  | cons r rs ih =>
      intro b hb
      rcases List.mem_cons.mp hb with hb | hb
      · subst hb
        exact mkBubble_inBounds i (h r (List.mem_cons.mpr (Or.inl rfl)))
      · exact ih (fun q hq => h q (List.mem_cons.mpr (Or.inr hq))) (i + 1) b hb

lemma sorted_inBounds {W H : Int} {boxes : List RawBox}
    (h : ∀ r ∈ boxes, rawInBounds W H r) :
    ∀ b ∈ pySortByYX (detect_speech_bubbles boxes), bubbleInBounds W H b := by
  intro b hb
  exact detectFrom_inBounds h 0 b (mem_pySortByYX.mp hb)

/-- C2: after `process_comic_page_with_languages` completes on a page with at
least one detection, every bubble's `translated_text` is a string — never
`None`.  For the record at sorted position `i`: when `original_text` is a
sentinel (`EMPTY`/`ERROR`) the bubble is never submitted to the translation
capability — the conclusion `s = r.original_text` holds for *every* value of
the translation oracle `trO`, which is universally quantified — and
`translated_text` equals that sentinel; otherwise `translated_text` is either
the translator's returned (stripped) string or, on a failed call, the original
text. -/
theorem C2_translated_text_never_none (modelLoaded : Bool) (boxes : List RawBox)
    (W H : Int) (img : Image) (pfxs : Nat → String)
    (exO trO : Nat → Except String String) (tm : TextMeasure) (res : PageResult)
    (h : process_comic_page_with_languages modelLoaded boxes W H img pfxs exO trO tm =
      .ok (some res))
    (i : Nat) (r : BubbleRecord) (hr : res.records[i]? = some r) :
    ∃ s, r.translated_text = some s ∧
      (isSentinel r.original_text = true → s = r.original_text) ∧
      (isSentinel r.original_text = false →
        (∃ t, trO i = .ok t ∧ s = pyStrip t) ∨
          (∃ e, trO i = .error e ∧ s = r.original_text)) := by
  obtain ⟨hrec, -, -⟩ := process_ok_some h
  rw [hrec, assembleRecords_getElem] at hr
  cases hb : (pySortByYX (detect_speech_bubbles boxes))[i]? with
  | none => rw [hb] at hr; simp at hr
  | some b =>
      rw [hb] at hr
      simp only [Nat.zero_add, Option.map_some', Option.some.injEq] at hr
      subst hr
      refine ⟨_, rfl, ?_, ?_⟩
      · intro hs
        simp only [mkRecord] at hs ⊢
        rw [if_pos hs]
      · intro hs
        simp only [mkRecord] at hs ⊢
        rw [if_neg (by simp [hs])]
        cases ht : trO i with
        | ok t =>
            refine Or.inl ⟨t, rfl, ?_⟩
            simp [translate_text_async, hs, ht]
        | error e =>
            refine Or.inr ⟨e, rfl, ?_⟩
            simp [translate_text_async, hs, ht]

/-- Concrete page for the pipeline witnesses: two detections on one row, the
second one's box overlapping the first. -/
def cBoxes : List RawBox := [⟨0, 0, 10, 10, 1⟩, ⟨4, 0, 14, 10, 1⟩]

/-- Extraction oracle: the first sorted bubble reads back `EMPTY`, the second
some text. -/
def exOc : Nat → Except String String := fun i => if i = 0 then .ok "EMPTY" else .ok " HI "

def trOc : Nat → Except String String := fun _ => .ok " PRIVET "

def cRecords : List BubbleRecord :=
  assembleRecords exOc trOc (pySortByYX (detect_speech_bubbles cBoxes)) 0

def cRes : PageResult :=
  ⟨cRecords, render_page tm0 inkImg cRecords, contextDelta cRecords⟩

/-- The first sorted bubble of the concrete page: sentinel `EMPTY`. -/
def cRec0 : BubbleRecord := ⟨⟨1, 0, 0, 10, 10, 1, 5, 5⟩, "EMPTY", some "EMPTY"⟩

/-- C2 witness: a completed two-bubble run; the sentinel bubble's
`translated_text` is the sentinel string. -/
theorem C2_translated_text_never_none_witness :
    ∃ s, cRec0.translated_text = some s ∧
      (isSentinel cRec0.original_text = true → s = cRec0.original_text) ∧
      (isSentinel cRec0.original_text = false →
        (∃ t, trOc 0 = .ok t ∧ s = pyStrip t) ∨
          (∃ e, trOc 0 = .error e ∧ s = cRec0.original_text)) :=
  C2_translated_text_never_none true cBoxes 100 100 inkImg pfx0 exOc trOc tm0 cRes
    rfl 0 cRec0 rfl

/-- C3: if the translation call for the bubble at sorted position `i` raises
(`trO i = .error e`) while the other bubbles' calls succeed, then no exception
escapes the page function — it completes and renders — bubble `i`'s
`translated_text` equals its `original_text` (the original is echoed
untranslated), every other non-sentinel bubble receives its own translator's
(stripped) string, and rendering proceeds for bubble `i` using the fallback
text: its second-pass ops are exactly `draw_text_in_bubble` of the original
text. -/
theorem C3_translation_failure_isolated (boxes : List RawBox) (W H : Int)
    (img : Image) (pfxs : Nat → String) (exO trO : Nat → Except String String)
    (tm : TextMeasure) (i : Nat) (e : String)
    (hW : 1 ≤ W) (hH : 1 ≤ H) (hin : ∀ r ∈ boxes, rawInBounds W H r)
    (hne : boxes ≠ []) (hfail : trO i = .error e)
    (hok : ∀ j, j ≠ i → ∃ t, trO j = .ok t) :
    ∃ res,
      process_comic_page_with_languages true boxes W H img pfxs exO trO tm =
          .ok (some res) ∧
        res.rendered = render_page tm img res.records ∧
        (∀ r, res.records[i]? = some r → r.translated_text = some r.original_text) ∧
        (∀ j r, j ≠ i → res.records[j]? = some r → isSentinel r.original_text = false →
          ∃ t, trO j = .ok t ∧ r.translated_text = some (pyStrip t)) ∧
        (∀ r, res.records[i]? = some r → isSentinel r.original_text = false →
          r.original_text ≠ "" →
          textOps tm r = (draw_text_in_bubble tm r.original_text r.bubble).ops) := by
  obtain ⟨cs, hcs⟩ := @cropAll_ok W H pfxs hW hH _ (sorted_inBounds hin) 0
  have hnemp : (pySortByYX (detect_speech_bubbles boxes)).isEmpty = false := by
    rcases hl : pySortByYX (detect_speech_bubbles boxes) with _ | ⟨a, l⟩
    · exfalso
      apply hne
      have hlen := length_pySortByYX (detect_speech_bubbles boxes)
      rw [hl] at hlen
      unfold detect_speech_bubbles at hlen
      rw [detectFrom_length] at hlen
      exact List.length_eq_zero.mp hlen.symm
    · rfl
  refine ⟨⟨assembleRecords exO trO (pySortByYX (detect_speech_bubbles boxes)) 0,
          render_page tm img
            (assembleRecords exO trO (pySortByYX (detect_speech_bubbles boxes)) 0),
          contextDelta
            (assembleRecords exO trO (pySortByYX (detect_speech_bubbles boxes)) 0)⟩,
    ?_, rfl, ?_, ?_, ?_⟩
  · unfold process_comic_page_with_languages
    rw [if_neg (by simp), if_neg (by simp [hnemp]), hcs]
  · intro r hr
    simp only [assembleRecords_getElem] at hr
    cases hb : (pySortByYX (detect_speech_bubbles boxes))[i]? with
    | none => rw [hb] at hr; simp at hr
    | some b =>
        rw [hb] at hr
        simp only [Nat.zero_add, Option.map_some', Option.some.injEq] at hr
        subst hr
        simp only [mkRecord]
        cases hs : isSentinel (extractResult (exO i)) with
        | true => simp
        | false => simp [translate_text_async, hfail, hs]
  · intro j r hj hr hsent
    simp only [assembleRecords_getElem] at hr
    cases hb : (pySortByYX (detect_speech_bubbles boxes))[j]? with
    | none => rw [hb] at hr; simp at hr
    | some b =>
        rw [hb] at hr
        simp only [Nat.zero_add, Option.map_some', Option.some.injEq] at hr
        subst hr
        obtain ⟨t, ht⟩ := hok j hj
        refine ⟨t, ht, ?_⟩
        simp only [mkRecord] at hsent ⊢
        simp [translate_text_async, hsent, ht]
  · intro r hr hsent hnempty
    simp only [assembleRecords_getElem] at hr
    cases hb : (pySortByYX (detect_speech_bubbles boxes))[i]? with
    | none => rw [hb] at hr; simp at hr
    | some b =>
        rw [hb] at hr
        simp only [Nat.zero_add, Option.map_some', Option.some.injEq] at hr
        subst hr
        simp only [mkRecord] at hsent hnempty ⊢
        have hE : (if isSentinel (extractResult (exO i)) = true then extractResult (exO i)
            else translate_text_async (trO i) (extractResult (exO i))) =
              extractResult (exO i) := by
          rw [if_neg (by simp [hsent])]
          simp [translate_text_async, hfail, hsent]
        unfold textOps
        simp only [hE]
        rw [if_neg hnempty, if_neg (by simp [hsent])]

/-- Two stacked detections for the C3 witness. -/
def fBoxes : List RawBox := [⟨0, 0, 30, 20, 1⟩, ⟨0, 30, 30, 50, 1⟩]

def exOf : Nat → Except String String := fun _ => .ok " HELLO "

/-- Translation oracle that raises for the first sorted bubble only. -/
def trOf : Nat → Except String String :=
  fun j => if j = 0 then .error "boom" else .ok " OK "

/-- C3 witness: the first bubble's translation call raises; the page completes,
bubble 1 echoes its original, bubble 2 translates normally. -/
theorem C3_translation_failure_isolated_witness :
    ∃ res,
      process_comic_page_with_languages true fBoxes 100 100 inkImg pfx0 exOf trOf tm0 =
          .ok (some res) ∧
        res.rendered = render_page tm0 inkImg res.records ∧
        (∀ r, res.records[0]? = some r → r.translated_text = some r.original_text) ∧
        (∀ j r, j ≠ 0 → res.records[j]? = some r → isSentinel r.original_text = false →
          ∃ t, trOf j = .ok t ∧ r.translated_text = some (pyStrip t)) ∧
        (∀ r, res.records[0]? = some r → isSentinel r.original_text = false →
          r.original_text ≠ "" →
          textOps tm0 r = (draw_text_in_bubble tm0 r.original_text r.bubble).ops) :=
  C3_translation_failure_isolated fBoxes 100 100 inkImg pfx0 exOf trOf tm0 0 "boom"
    (by decide) (by decide) (by decide) (by decide) rfl
    (fun j hj => ⟨" OK ", if_neg hj⟩)

/-- A pixel inside a bubble's (half-open) bounding-box region. -/
def inRegion (b : Bubble) (p : Int × Int) : Prop :=
  b.x ≤ p.1 ∧ p.1 < b.x + b.width ∧ b.y ≤ p.2 ∧ p.2 < b.y + b.height

instance (b : Bubble) (p : Int × Int) : Decidable (inRegion b p) := by
  unfold inRegion; exact inferInstance

instance (tm : TextMeasure) (op : DrawOp) (p : Int × Int) : Decidable (opWrites tm op p) :=
  match op with
  | .ellipse b => inferInstanceAs (Decidable (ellipseCovers b p))
  | .text line fs ax ay _ => inferInstanceAs (Decidable (tm.glyph line fs (ax, ay) p = true))

instance (tm : TextMeasure) (r : BubbleRecord) (p : Int × Int) :
    Decidable (recordFootprint tm r p) := by
  unfold recordFootprint; exact List.decidableBEx _ _

lemma isSentinel_ne_empty {s : String} (h : isSentinel s = true) : s ≠ "" := by
  unfold isSentinel at h
  rw [Bool.or_eq_true, beq_iff_eq, beq_iff_eq] at h
  rcases h with rfl | rfl <;> decide

lemma assembleRecords_mem {exO trO : Nat → Except String String} :
    ∀ {bs : List Bubble} {i : Nat} {r : BubbleRecord},
      r ∈ assembleRecords exO trO bs i → ∃ b k, r = mkRecord b (exO k) (trO k) := by
  intro bs
  induction bs with
  | nil => intro i r hr; simp [assembleRecords] at hr
  | cons b bs ih =>
      intro i r hr
      rcases List.mem_cons.mp hr with hr | hr
      · exact ⟨b, i, hr⟩
      · exact ih hr

/-- C6 counterexample: a completed two-bubble run where the first bubble's
extraction is the sentinel `EMPTY` but the second bubble's box overlaps the
first's region; the second bubble's cover ellipse paints a pixel of the
sentinel bubble's region white, so the output pixels inside the sentinel
bubble's region do *not* all equal the input image's. -/
theorem C6_counterexample :
    ∃ res,
      process_comic_page_with_languages true cBoxes 100 100 inkImg pfx0 exOc trOc tm0 =
          .ok (some res) ∧
        ∃ r, res.records[0]? = some r ∧ isSentinel r.original_text = true ∧
          inRegion r.bubble (9, 5) ∧ res.rendered (9, 5) ≠ inkImg (9, 5) :=
  ⟨cRes, rfl, cRec0, rfl, rfl, by decide, by decide⟩

/-- C6 (amended): in every completed run, a bubble whose `original_text` is a
sentinel gets neither a cover ellipse nor any text drawn for it (both its op
lists are empty), and therefore every pixel of its region that no *other*
record's drawn cover ellipse or text touches keeps the input image's color.
(The no-overlap proviso is forced by the counterexample: another bubble's
cover ellipse may intersect the sentinel bubble's region.) -/
theorem C6_sentinel_region_untouched (modelLoaded : Bool) (boxes : List RawBox)
    (W H : Int) (img : Image) (pfxs : Nat → String)
    (exO trO : Nat → Except String String) (tm : TextMeasure) (res : PageResult)
    (h : process_comic_page_with_languages modelLoaded boxes W H img pfxs exO trO tm =
      .ok (some res))
    (s : BubbleRecord) (hs : s ∈ res.records)
    (hsent : isSentinel s.original_text = true)
    (p : Int × Int) (hp : inRegion s.bubble p)
    (hdisj : ∀ r ∈ res.records, r ≠ s → ¬ recordFootprint tm r p) :
    coverOps s = [] ∧ textOps tm s = [] ∧ res.rendered p = img p := by
  obtain ⟨hrec, hrend, -⟩ := process_ok_some h
  have hcov : coverOps s = [] := by
    unfold coverOps
    rw [if_pos hsent]
  have htext : textOps tm s = [] := by
    rw [hrec] at hs
    obtain ⟨b, k, rfl⟩ := assembleRecords_mem hs
    simp only [mkRecord] at hsent ⊢
    unfold textOps
    simp only [mkRecord, if_pos hsent]
    split <;> rfl
  refine ⟨hcov, htext, ?_⟩
  rw [hrend]
  apply render_page_eq_of_disjoint
  intro r hr
  by_cases hrs : r = s
  · subst hrs
    intro hfp
    obtain ⟨op, hop, -⟩ := hfp
    rw [hcov, htext] at hop
    simp at hop
  · exact hdisj r hr hrs

/-- Two far-apart detections for the C6 witness: the first reads back the
sentinel, the second is disjoint from the first's region. -/
def dBoxes : List RawBox := [⟨0, 0, 10, 10, 1⟩, ⟨50, 50, 60, 60, 1⟩]

def dRecords : List BubbleRecord :=
  assembleRecords exOc trOc (pySortByYX (detect_speech_bubbles dBoxes)) 0

def dRes : PageResult :=
  ⟨dRecords, render_page tm0 inkImg dRecords, contextDelta dRecords⟩

/-- The sentinel record of the disjoint page. -/
def dRec0 : BubbleRecord := ⟨⟨1, 0, 0, 10, 10, 1, 5, 5⟩, "EMPTY", some "EMPTY"⟩

/-- C6 witness: with the overlap proviso satisfied (disjoint bubbles), the
sentinel bubble draws nothing and its region pixel keeps the input color. -/
theorem C6_sentinel_region_untouched_witness :
    coverOps dRec0 = [] ∧ textOps tm0 dRec0 = [] ∧ dRes.rendered (2, 2) = inkImg (2, 2) :=
  C6_sentinel_region_untouched true dBoxes 100 100 inkImg pfx0 exOc trOc tm0 dRes
    rfl dRec0 (by decide) (by decide) (2, 2) (by decide) (by decide)
